import Mathlib

/-!
Shallow embedding of the CSV reader in src/csv.c (birendpatel/CSV-Parser).

The file stream is modelled as a `List Char`; `getc` consumes the head and
end-of-list models EOF.  `ungetc` always succeeds on a list, so the
`CSV_FATAL_UNGETC` branch of `csv_rows` is unreachable in the model.
Allocations are assumed to succeed, so the `CSV_MALLOC_FAILED` branches are
not taken.  A function that the C source would run forever on (an unclosed
quote reaches EOF inside the quote-consuming sub-scan) or that performs an
out-of-bounds store returns `none`: `none` marks behaviour with no defined
result.  Machine counters (`uint32_t`) are Nat with explicit reduction
modulo 2 ^ 32 at each increment, exactly where the C code can wrap.
-/

/-- Error codes of csv.h, same names and meaning. -/
inductive CsvErrno
  | CSV_SUCCESS
  | CSV_NULL_FILENAME
  | CSV_INVALID_FILE
  | CSV_NUM_COLUMNS_OVERFLOW
  | CSV_NUM_ROWS_OVERFLOW
  | CSV_FIELD_LEN_OVERFLOW
  | CSV_BUFFER_OVERFLOW
  | CSV_MALLOC_FAILED
  | CSV_FATAL_UNGETC
  | CSV_NULL_INPUT_POINTER
  | CSV_PARAM_OUT_OF_BOUNDS
  | CSV_UNKNOWN_FATAL_ERROR
  | CSV_READ_FAIL
  | CSV_READ_OVERFLOW
  | CSV_READ_UNDERFLOW
  | CSV_READ_PARTIAL
  | CSV_INVALID_BASE
  | CSV_MISSING_DATA
  | CSV_UNDEFINED
deriving DecidableEq, Repr

open CsvErrno

/-- Wrap bound of a uint32_t counter. -/
def U32 : Nat := 2 ^ 32

/-- The double-quote byte, written via its code point to keep character
literals simple. -/
def quoteChar : Char := Char.ofNat 34

/-- The line-feed byte. -/
def nlChar : Char := Char.ofNat 10

/-- The nul byte used to terminate the field buffer. -/
def nulChar : Char := Char.ofNat 0

/-- CSV_TEMPORARY_BUFFER_LENGTH from csv.h. -/
def CSV_TEMPORARY_BUFFER_LENGTH : Nat := 1024

/-!
Field tokenizer, csv_tokenize (csv.c lines 228-256).  The C loop reads a
lag character; a quote makes it read a lead character, breaking when the
lead is a delimiter and otherwise storing the lead; a bare delimiter or EOF
breaks; any other lag character is stored.  Each store is
`buffer[i++] = c` with `i : uint32_t` and no bounds check against the
buffer; after the loop the single test `i == (uint32_t) n` yields
CSV_BUFFER_OVERFLOW and otherwise `buffer[i] = nul` is written and
CSV_SUCCESS returned.  The model records every buffer write as an
index-character pair so that claims about where the code writes can be
stated.
-/

/-- Result of one csv_tokenize call: the status, every buffer write it
performed in order (index paired with the character written), and the
remaining stream after the consumed characters. -/
structure TokRes where
  status : CsvErrno
  writes : List (Nat × Char)
  rest : List Char
deriving DecidableEq, Repr

/-- Shared exit path of the tokenizer loop: the buffer-capacity test and
the nul-terminator write of csv.c lines 251-255. -/
def tok_end (n i : Nat) (w : List (Nat × Char)) (rest : List Char) : TokRes :=
  if i = n % U32 then ⟨CSV_BUFFER_OVERFLOW, w, rest⟩
  else ⟨CSV_SUCCESS, w ++ [(i, nulChar)], rest⟩

/-- Loop body of csv_tokenize.  `i` is the wrapped uint32_t write counter,
`w` the writes so far. -/
def tok_loop (s : List Char) (n i : Nat) (w : List (Nat × Char)) : TokRes :=
  match s with
  | [] => tok_end n i w []
  | lag :: rest =>
    if lag = quoteChar then
      match rest with
      | [] => tok_end n i w []
      | lead :: rest' =>
        if lead = ',' ∨ lead = nlChar then tok_end n i w rest'
        else
          let i' := (i + 1) % U32
          if i' = 0 then ⟨CSV_FIELD_LEN_OVERFLOW, w ++ [(i, lead)], rest'⟩
          else tok_loop rest' n i' (w ++ [(i, lead)])
    else if lag = ',' ∨ lag = nlChar then tok_end n i w rest
    else
      let i' := (i + 1) % U32
      if i' = 0 then ⟨CSV_FIELD_LEN_OVERFLOW, w ++ [(i, lag)], rest⟩
      else tok_loop rest n i' (w ++ [(i, lag)])

/-- csv_tokenize: read the next field from the stream into a buffer of
capacity `n`. -/
def csv_tokenize (s : List Char) (n : Nat) : TokRes :=
  tok_loop s n 0 []

/-- The nul-terminated string a caller reads back from the buffer after a
tokenize call: the characters written, cut at the first nul, mirroring the
strlen/strncpy extraction in csv_get_header and csv_get_data. -/
def tokStr (r : TokRes) : List Char :=
  (r.writes.map Prod.snd).takeWhile (fun c => c ≠ nulChar)

/-!
Column counter, csv_cols (csv.c lines 128-164).  The quote-consuming
sub-scan (read until the next quote) is expressed as an in-quote state;
reaching end-of-stream inside that state is the infinite loop of the C
code, modelled as `none`.
-/

/-- Loop of csv_cols with the quote sub-scan as a Boolean state. -/
def cols_loop (s : List Char) (inQ : Bool) (cols : Nat) : Option (CsvErrno × Nat) :=
  match s with
  | [] => if inQ then none else some (CSV_SUCCESS, cols)
  | c :: rest =>
    if inQ then
      if c = quoteChar then cols_loop rest false cols else cols_loop rest true cols
    else if c = ',' then
      let k := (cols + 1) % U32
      if k = 0 then some (CSV_NUM_COLUMNS_OVERFLOW, k) else cols_loop rest false k
    else if c = nlChar then some (CSV_SUCCESS, cols)
    else if c = quoteChar then cols_loop rest true cols
    else cols_loop rest false cols

/-- csv_cols: number of columns read off the first row. -/
def csv_cols (s : List Char) : Option (CsvErrno × Nat) :=
  cols_loop s false 1

/-!
Row counter, csv_rows (csv.c lines 173-219).  A line feed peeks one
character ahead: EOF goes to the terminate label, anything else is pushed
back and the row counter incremented.  The terminate label adds the final
row.  The ungetc failure branch cannot occur on a list stream.
-/

/-- Terminate label of csv_rows: the final increment with its wrap check. -/
def rows_term (rows : Nat) : Option (CsvErrno × Nat) :=
  let k := (rows + 1) % U32
  if k = 0 then some (CSV_NUM_ROWS_OVERFLOW, k) else some (CSV_SUCCESS, k)

/-- Loop of csv_rows with the quote sub-scan as a Boolean state. -/
def rows_loop (s : List Char) (inQ : Bool) (rows : Nat) : Option (CsvErrno × Nat) :=
  match s with
  | [] => if inQ then none else rows_term rows
  | c :: rest =>
    if inQ then
      if c = quoteChar then rows_loop rest false rows else rows_loop rest true rows
    else if c = nlChar then
      match rest with
      | [] => rows_term rows
      | _ :: _ =>
        let k := (rows + 1) % U32
        if k = 0 then some (CSV_NUM_ROWS_OVERFLOW, k) else rows_loop rest false k
    else if c = quoteChar then rows_loop rest true rows
    else rows_loop rest false rows

/-- csv_rows: number of rows in the whole stream, header included. -/
def csv_rows (s : List Char) : Option (CsvErrno × Nat) :=
  rows_loop s false 0

/-- csv_dims (csv.c lines 102-119): the column pass, then the row pass,
then the header adjustment (a uint32_t decrement, which would wrap at 0). -/
def csv_dims (s : List Char) (hdr : Bool) : Option (CsvErrno × Nat × Nat) :=
  match csv_cols s with
  | none => none
  | some (st1, c) =>
    if st1 ≠ CSV_SUCCESS then some (st1, 0, c)
    else
      match csv_rows s with
      | none => none
      | some (st2, r) =>
        if st2 = CSV_SUCCESS then
          some (CSV_SUCCESS, (if hdr then (r + (U32 - 1)) % U32 else r), c)
        else some (st2, r, c)

/-!
The in-memory document, struct csv of csv.h.  The header field is `none`
when the C pointer is NULL (read called with header false).  When present
it is the allocated pointer array: a list of slots, `none` marking a slot
that was never stored (uninitialized memory in the C array).
-/

/-- struct csv. -/
structure CsvDoc where
  rows : Nat
  cols : Nat
  missing : Nat
  total : Nat
  header : Option (List (Option (List Char)))
  data : List (List (List Char))
deriving DecidableEq, Repr

/-- Store into a fixed-size allocated array, `none` when the index is past
the allocation: the C program would write out of bounds there. -/
def listStore (l : List (Option α)) (i : Nat) (x : α) : Option (List (Option α)) :=
  if i < l.length then some (l.set i (some x)) else none

/-- Loop of csv_get_header (csv.c lines 279-289): tokenize the next field
into the temporary buffer, then store the extracted string at slot `i` of
the allocated header array. -/
def header_loop (k : Nat) (s : List Char) (hdr : List (Option (List Char))) (i : Nat) :
    Option (CsvErrno × List (Option (List Char)) × List Char) :=
  match k with
  | 0 => some (CSV_SUCCESS, hdr, s)
  | k' + 1 =>
    let r := csv_tokenize s CSV_TEMPORARY_BUFFER_LENGTH
    if r.status ≠ CSV_SUCCESS then some (r.status, hdr, r.rest)
    else
      match listStore hdr i (tokStr r) with
      | none => none
      | some hdr' => header_loop k' r.rest hdr' (i + 1)

/-- csv_get_header (csv.c lines 265-295): the header array is allocated
with `rows` pointer slots (line 276 mallocs sizeof(void*) * csv->rows) and
the loop stores `cols` column names into it.  Returns the status, the
header array and the stream position where the data rows begin. -/
def csv_get_header (rows cols : Nat) (s : List Char) :
    Option (CsvErrno × List (Option (List Char)) × List Char) :=
  header_loop cols s (List.replicate rows none) 0

/-- Inner loop of csv_get_data: tokenize `k` fields of one row, appending
each extracted cell string and counting the empty ones as missing. -/
def data_row_loop (k : Nat) (s : List Char) (acc : List (List Char)) (miss : Nat) :
    CsvErrno × List (List Char) × Nat × List Char :=
  match k with
  | 0 => (CSV_SUCCESS, acc, miss, s)
  | k' + 1 =>
    let r := csv_tokenize s CSV_TEMPORARY_BUFFER_LENGTH
    if r.status ≠ CSV_SUCCESS then (r.status, acc, miss, r.rest)
    else
      data_row_loop k' r.rest (acc ++ [tokStr r])
        (miss + (if tokStr r = [] then 1 else 0))

/-- Outer loop of csv_get_data over the rows. -/
def data_rows_loop (k cols : Nat) (s : List Char) (acc : List (List (List Char)))
    (miss : Nat) : CsvErrno × List (List (List Char)) × Nat × List Char :=
  match k with
  | 0 => (CSV_SUCCESS, acc, miss, s)
  | k' + 1 =>
    match data_row_loop cols s [] miss with
    | (st, row, miss', s') =>
      if st ≠ CSV_SUCCESS then (st, acc, miss', s')
      else data_rows_loop k' cols s' (acc ++ [row]) miss'

/-- csv_get_data (csv.c lines 305-345): fill the rows-by-cols table.  When
the nested loops run zero times the C status variable keeps its initial
CSV_UNDEFINED value and that is what the function returns. -/
def csv_get_data (rows cols : Nat) (s : List Char) :
    CsvErrno × List (List (List Char)) × Nat × List Char :=
  if rows = 0 ∨ cols = 0 then (CSV_UNDEFINED, [], 0, s)
  else data_rows_loop rows cols s [] 0

/-- Tail of csv_read after the header stage: load the data, then the
sanity check of csv.c line 79 comparing total against missing. -/
def csv_finish (r c : Nat) (hl : Option (List (Option (List Char)))) (s : List Char) :
    Option (CsvErrno × Option CsvDoc) :=
  match csv_get_data r c s with
  | (st2, dat, miss, _) =>
    if st2 ≠ CSV_SUCCESS then some (st2, none)
    else if r * c ≤ miss then some (CSV_UNKNOWN_FATAL_ERROR, none)
    else some (CSV_SUCCESS, some ⟨r, c, miss, r * c, hl, dat⟩)

/-- Header stage of csv_read (csv.c lines 67-72): a NULL header pointer
when no header was requested, otherwise csv_get_header from the start of
the stream, the data loader continuing at the recorded position. -/
def csv_build (r c : Nat) (hdr : Bool) (s : List Char) : Option (CsvErrno × Option CsvDoc) :=
  if hdr then
    match csv_get_header r c s with
    | none => none
    | some (sth, hl, rest) =>
      if sth ≠ CSV_SUCCESS then some (sth, none)
      else csv_finish r c (some hl) rest
  else csv_finish r c none s

/-- csv_read (csv.c lines 42-94).  The input is the opened file content;
`none` stands for a file that fopen could not open (missing path, empty
path), which the C code reports as CSV_INVALID_FILE.  The result pairs the
error code written through the error out-parameter with the returned
document, `none` for a NULL return. -/
def csv_read (file : Option (List Char)) (hdr : Bool) : Option (CsvErrno × Option CsvDoc) :=
  match file with
  | none => some (CSV_INVALID_FILE, none)
  | some s =>
    match csv_dims s hdr with
    | none => none
    | some (st, r, c) =>
      if st ≠ CSV_SUCCESS then some (st, none)
      else csv_build r c hdr s

/-- Header slots read by csv_free (csv.c lines 357-360): the loop frees
csv->header[i] for every i below csv->cols, with no test that the header
pointer is non-NULL. -/
def csv_free_header_reads (csv : CsvDoc) : List Nat :=
  List.range csv.cols

/-- csv_free (csv.c lines 355-377).  The walk dereferences the header
pointer at every index below cols; when the header pointer is NULL and
cols is positive that dereference has no defined result, and when the
header allocation is shorter than cols the reads run out of bounds. -/
def csv_free (csv : CsvDoc) : Option Unit :=
  match csv.header with
  | none => if csv.cols = 0 then some () else none
  | some hl => if csv.cols ≤ hl.length then some () else none

/-!
Numeric conversion.  csv_rowl and csv_coll call strtol with errno cleared
beforehand; csv_rowd and csv_cold call strtod.  The models follow the
POSIX and glibc behaviour the code relies on: values saturate at LONG_MAX
or LONG_MIN with errno ERANGE, the end pointer is reset to the start of
the string when no digits were consumed, and an unsupported base yields
errno EINVAL with no characters consumed.  The strtod model parses plain
decimal notation with an optional fraction and exponent into an exact
rational; hexadecimal floats, infinities, NaNs and the ERANGE rounding
cases are outside the model and no claim depends on them.
-/

/-- The two errno values the accessors inspect. -/
inductive CErr
  | erange
  | einval
deriving DecidableEq, Repr

/-- LONG_MAX on the LP64 targets the code is built for. -/
def LONG_MAX : Int := 2 ^ 63 - 1

/-- LONG_MIN on the LP64 targets the code is built for. -/
def LONG_MIN : Int := -(2 ^ 63)

/-- Outcome of a strtol call: the returned value, the number of characters
between the start of the string and the final end pointer, and the errno
value it set. -/
structure StrtolRes where
  val : Int
  consumed : Nat
  err : Option CErr
deriving DecidableEq, Repr

/-- White space accepted by strtol and strtod before the number. -/
def isSpaceChar (c : Char) : Bool :=
  c = ' ' ∨ c.toNat = 9 ∨ c.toNat = 10 ∨ c.toNat = 11 ∨ c.toNat = 12 ∨ c.toNat = 13

/-- Value of a character as a digit, letters counting from ten. -/
def digitVal (c : Char) : Option Nat :=
  if 48 ≤ c.toNat ∧ c.toNat ≤ 57 then some (c.toNat - 48)
  else if 97 ≤ c.toNat ∧ c.toNat ≤ 122 then some (c.toNat - 87)
  else if 65 ≤ c.toNat ∧ c.toNat ≤ 90 then some (c.toNat - 55)
  else none

/-- Whether a character is a digit of the given base. -/
def isBaseDigit (base : Nat) (c : Char) : Bool :=
  match digitVal c with
  | some d => d < base
  | none => false

/-- strtol model. -/
def strtol (s : List Char) (base : Nat) : StrtolRes :=
  if base < 2 ∨ 36 < base then ⟨0, 0, some CErr.einval⟩
  else
    let t1 := s.dropWhile isSpaceChar
    let neg : Bool := match t1 with | c :: _ => c = '-' | [] => false
    let sgn : Bool := match t1 with | c :: _ => c = '-' ∨ c = '+' | [] => false
    let t2 := if sgn then t1.tail else t1
    let digs := t2.takeWhile (isBaseDigit base)
    if digs = [] then ⟨0, 0, none⟩
    else
      let m : Nat := digs.foldl (fun a c => a * base + ((digitVal c).getD 0)) 0
      let v : Int := if neg then -(m : Int) else (m : Int)
      let consumed := (s.length - t2.length) + digs.length
      if LONG_MAX < v then ⟨LONG_MAX, consumed, some CErr.erange⟩
      else if v < LONG_MIN then ⟨LONG_MIN, consumed, some CErr.erange⟩
      else ⟨v, consumed, none⟩

/-- Per-cell conversion of csv_rowl and csv_coll (csv.c lines 393-417):
the missing-data test on the first byte of the stored field comes first,
then strtol, then the chain of end-pointer and errno checks in source
order. -/
def convert_long (cell : List Char) (base : Nat) : Except CsvErrno Int :=
  if cell = [] then .error CSV_MISSING_DATA
  else
    let r := strtol cell base
    if r.consumed = 0 then .error CSV_READ_FAIL
    else if r.err = some CErr.erange ∧ r.val = LONG_MIN then .error CSV_READ_UNDERFLOW
    else if r.err = some CErr.erange ∧ r.val = LONG_MAX then .error CSV_READ_OVERFLOW
    else if r.err = some CErr.einval then .error CSV_INVALID_BASE
    else if r.err = none ∧ r.consumed < cell.length then .error CSV_READ_PARTIAL
    else if r.err ≠ none then .error CSV_UNKNOWN_FATAL_ERROR
    else .ok r.val

/-- Outcome of a strtod call. -/
structure StrtodRes where
  val : ℚ
  consumed : Nat
  err : Option CErr
deriving DecidableEq, Repr

/-- Whether a character is a decimal digit. -/
def isDigit10 (c : Char) : Bool :=
  48 ≤ c.toNat ∧ c.toNat ≤ 57

/-- Numeric value of a list of decimal digits. -/
def digitsVal (l : List Char) : Nat :=
  l.foldl (fun a c => a * 10 + ((digitVal c).getD 0)) 0

/-- strtod model over plain decimal notation. -/
def strtod (s : List Char) : StrtodRes :=
  let t1 := s.dropWhile isSpaceChar
  let neg : Bool := match t1 with | c :: _ => c = '-' | [] => false
  let sgn : Bool := match t1 with | c :: _ => c = '-' ∨ c = '+' | [] => false
  let t2 := if sgn then t1.tail else t1
  let d1 := t2.takeWhile isDigit10
  let t3 := t2.drop d1.length
  let hasDot : Bool := match t3 with | c :: _ => c = '.' | [] => false
  let d2 := if hasDot then t3.tail.takeWhile isDigit10 else []
  if d1 = [] ∧ d2 = [] then ⟨0, 0, none⟩
  else
    let t4 := if hasDot then (t3.tail.drop d2.length) else t3
    let hasE : Bool := match t4 with | c :: _ => c = 'e' ∨ c = 'E' | [] => false
    let t5 := if hasE then t4.tail else t4
    let eneg : Bool := match t5 with | c :: _ => c = '-' | [] => false
    let esgn : Bool := match t5 with | c :: _ => c = '-' ∨ c = '+' | [] => false
    let t6 := if esgn then t5.tail else t5
    let ed := t6.takeWhile isDigit10
    let expLen := if hasE ∧ ed ≠ [] then 1 + (if esgn then 1 else 0) + ed.length else 0
    let expVal : Int := if hasE ∧ ed ≠ [] then
        (if eneg then -(digitsVal ed : Int) else (digitsVal ed : Int)) else 0
    let m : ℚ := (digitsVal (d1 ++ d2) : ℚ) / (10 : ℚ) ^ d2.length
    let v : ℚ := (if neg then -m else m) * (10 : ℚ) ^ (expVal : Int)
    let consumed := (s.length - t2.length) + d1.length
      + (if hasDot then 1 + d2.length else 0) + expLen
    ⟨v, consumed, none⟩

/-- Per-cell conversion of csv_rowd and csv_cold (csv.c lines 568-586). -/
def convert_double (cell : List Char) : Except CsvErrno ℚ :=
  if cell = [] then .error CSV_MISSING_DATA
  else
    let r := strtod cell
    if r.consumed = 0 then .error CSV_READ_FAIL
    else if r.err = none ∧ r.consumed < cell.length then .error CSV_READ_PARTIAL
    else if r.err ≠ none then .error CSV_UNKNOWN_FATAL_ERROR
    else .ok r.val

/-- Per-cell extraction of csv_rowc and csv_colc (csv.c lines 496-508):
the first byte of the stored field, a nul first byte meaning missing. -/
def convert_char (cell : List Char) : Except CsvErrno Char :=
  match cell with
  | [] => .error CSV_MISSING_DATA
  | c :: _ => .ok c

/-- The stored field at row i, column j. -/
def cellAt (csv : CsvDoc) (i j : Nat) : List Char :=
  (csv.data.getD i []).getD j []

/-- csv_rowl (csv.c lines 385-430): bounds test on the row index against
csv->rows, then the column sweep converting each cell, returning no array
on the first failure. -/
def csv_rowl (csv : CsvDoc) (i base : Nat) : CsvErrno × Option (List Int) :=
  if csv.rows ≤ i then (CSV_PARAM_OUT_OF_BOUNDS, none)
  else
    match (List.range csv.cols).mapM (fun j => convert_long (cellAt csv i j) base) with
    | .error e => (e, none)
    | .ok a => (CSV_SUCCESS, some a)

/-- csv_coll (csv.c lines 437-482): bounds test on the column index
against csv->cols, then the row sweep. -/
def csv_coll (csv : CsvDoc) (j base : Nat) : CsvErrno × Option (List Int) :=
  if csv.cols ≤ j then (CSV_PARAM_OUT_OF_BOUNDS, none)
  else
    match (List.range csv.rows).mapM (fun i => convert_long (cellAt csv i j) base) with
    | .error e => (e, none)
    | .ok a => (CSV_SUCCESS, some a)

/-- csv_rowc (csv.c lines 488-519): bounds test on the row index against
csv->rows, then the column sweep of first bytes. -/
def csv_rowc (csv : CsvDoc) (i : Nat) : CsvErrno × Option (List Char) :=
  if csv.rows ≤ i then (CSV_PARAM_OUT_OF_BOUNDS, none)
  else
    match (List.range csv.cols).mapM (fun j => convert_char (cellAt csv i j)) with
    | .error e => (e, none)
    | .ok a => (CSV_SUCCESS, some a)

/-- csv_colc (csv.c lines 525-556).  Line 528 of the source tests the
column index j against csv->rows, not csv->cols; the model keeps that
comparison exactly as written. -/
def csv_colc (csv : CsvDoc) (j : Nat) : CsvErrno × Option (List Char) :=
  if csv.rows ≤ j then (CSV_PARAM_OUT_OF_BOUNDS, none)
  else
    match (List.range csv.rows).mapM (fun i => convert_char (cellAt csv i j)) with
    | .error e => (e, none)
    | .ok a => (CSV_SUCCESS, some a)

/-- csv_rowd (csv.c lines 560-599). -/
def csv_rowd (csv : CsvDoc) (i : Nat) : CsvErrno × Option (List ℚ) :=
  if csv.rows ≤ i then (CSV_PARAM_OUT_OF_BOUNDS, none)
  else
    match (List.range csv.cols).mapM (fun j => convert_double (cellAt csv i j)) with
    | .error e => (e, none)
    | .ok a => (CSV_SUCCESS, some a)

/-- csv_cold (csv.c lines 603-642). -/
def csv_cold (csv : CsvDoc) (j : Nat) : CsvErrno × Option (List ℚ) :=
  if csv.cols ≤ j then (CSV_PARAM_OUT_OF_BOUNDS, none)
  else
    match (List.range csv.rows).mapM (fun i => convert_double (cellAt csv i j)) with
    | .error e => (e, none)
    | .ok a => (CSV_SUCCESS, some a)

/-- Decidable equality for conversion results, used to evaluate the claim
theorems on concrete cells. -/
instance {ε α : Type} [DecidableEq ε] [DecidableEq α] : DecidableEq (Except ε α)
  | .error e, .error f =>
    if h : e = f then .isTrue (by rw [h])
    else .isFalse (by intro hh; cases hh; exact h rfl)
  | .error _, .ok _ => .isFalse (by intro hh; cases hh)
  | .ok _, .error _ => .isFalse (by intro hh; cases hh)
  | .ok a, .ok b =>
    if h : a = b then .isTrue (by rw [h])
    else .isFalse (by intro hh; cases hh; exact h rfl)

/-!
Well-formed files for the row-count claim.  A file of lines is rendered
with a single line feed between consecutive lines and no trailing
terminator; each line is nonempty and free of line feeds and quotes, a
family of well-formed inputs on which the row pass is characterized
exactly.
-/

/-- Render a list of lines with a line feed separating consecutive
lines. -/
def renderFile : List (List Char) → List Char
  | [] => []
  | [l] => l
  | l :: l2 :: ls => l ++ nlChar :: renderFile (l2 :: ls)

/-- A line of the well-formed family: nonempty, no line feed, no quote. -/
def lineOK (l : List Char) : Prop :=
  l ≠ [] ∧ nlChar ∉ l ∧ quoteChar ∉ l

/-- Index validity of the well-formed family is decidable, so witnesses
can be checked by evaluation. -/
instance (l : List Char) : Decidable (lineOK l) := by
  unfold lineOK; infer_instance

/-!
Claim theorems.  Each concrete file below is written as an explicit
character list; quoteChar and nlChar stand for the double-quote and
line-feed bytes.
-/

/-- Claim C1: the spec says a quoted field containing a delimiter, written
as quote a comma b quote, decodes to the literal text a comma b.  The
tokenizer protects only the single character that immediately follows a
quote, so on that input it stops at the bare comma: the call succeeds with
the decoded field being just the letter a, and the letters after the comma
are left in the stream.  The doubled-quote half of the claim does hold, as
the second conjunct shows on the quote a quote quote b quote input. -/
theorem csv_tokenize_quoted_delimiter_bug :
    (csv_tokenize [quoteChar, 'a', ',', 'b', quoteChar] 1024).status = CSV_SUCCESS ∧
    tokStr (csv_tokenize [quoteChar, 'a', ',', 'b', quoteChar] 1024) = ['a'] ∧
    (csv_tokenize [quoteChar, 'a', ',', 'b', quoteChar] 1024).rest = ['b', quoteChar] ∧
    tokStr (csv_tokenize [quoteChar, 'a', quoteChar, quoteChar, 'b', quoteChar] 1024)
      = ['a', quoteChar, 'b'] ∧
    ['a'] ≠ ['a', ',', 'b'] := by
  decide

/-- Claim C2: the spec says every column accessor validates its index
against col_count.  csv_colc (csv.c line 528) compares the column index
against csv->rows instead: on a one-row, two-column document the valid
column index 1 is rejected with CSV_PARAM_OUT_OF_BOUNDS even though it is
below col_count. -/
theorem csv_colc_wrong_bound_bug :
    csv_colc ⟨1, 2, 0, 2, none, [[['a'], ['b']]]⟩ 1 = (CSV_PARAM_OUT_OF_BOUNDS, none) ∧
    (1 : Nat) < (CsvDoc.mk 1 2 0 2 none [[['a'], ['b']]]).cols := by
  decide

/-- Claim C4: the spec says the release walk over header entries happens
only when a header is present.  csv_free (csv.c lines 357-360) runs the
walk unconditionally: reading the one-cell file without a header yields a
document whose header pointer is NULL, yet the free walk still
dereferences header slot 0, which has no defined result. -/
theorem csv_free_null_header_bug :
    csv_read (some ['a']) false
      = some (CSV_SUCCESS, some ⟨1, 1, 0, 1, none, [[['a']]]⟩) ∧
    (CsvDoc.mk 1 1 0 1 none [[['a']]]).header = none ∧
    csv_free_header_reads ⟨1, 1, 0, 1, none, [[['a']]]⟩ = [0] ∧
    csv_free ⟨1, 1, 0, 1, none, [[['a']]]⟩ = none := by
  decide

/-- Claim C5: the spec says every header store lands inside the sequence
allocated for the header.  The allocation at csv.c line 276 is sized by
csv->rows while the loop at line 279 stores csv->cols entries: the
two-column, one-data-row file a comma b newline x comma y dimensions to
rows 1 and cols 2, the store of the second column name falls outside the
one-slot allocation, and the whole read has no defined result. -/
theorem csv_get_header_store_out_of_bounds_bug :
    csv_dims ['a', ',', 'b', nlChar, 'x', ',', 'y'] true = some (CSV_SUCCESS, 1, 2) ∧
    csv_get_header 1 2 ['a', ',', 'b', nlChar, 'x', ',', 'y'] = none ∧
    csv_read (some ['a', ',', 'b', nlChar, 'x', ',', 'y']) true = none := by
  decide

/-- Claim C7 as stated is false: csv.h defines no empty-file error code.
Reading a zero-byte stream without a header runs the full pipeline, finds
one row and one column, loads a single empty cell and fails the
total-versus-missing sanity check, returning NULL with
CSV_UNKNOWN_FATAL_ERROR rather than any empty-file code. -/
theorem csv_read_empty_file_counterexample :
    csv_read (some []) false = some (CSV_UNKNOWN_FATAL_ERROR, none) ∧
    CSV_UNKNOWN_FATAL_ERROR ≠ CSV_INVALID_FILE := by
  decide

/-- Claim C7 amended: an unopenable path (empty or nonexistent, both of
which make fopen fail) yields CSV_INVALID_FILE and no document, and a
zero-byte file read without a header yields CSV_UNKNOWN_FATAL_ERROR and no
document. -/
theorem csv_read_unopenable_and_empty :
    csv_read none true = some (CSV_INVALID_FILE, none) ∧
    csv_read none false = some (CSV_INVALID_FILE, none) ∧
    csv_read (some []) false = some (CSV_UNKNOWN_FATAL_ERROR, none) := by
  decide

/-- Claim C8: on a cell of twenty nines the strtol value saturates past
LONG_MAX with errno ERANGE and the integer accessors report
CSV_READ_OVERFLOW; on the cell one-two-a the numeric prefix parses and the
leftover letter reports CSV_READ_PARTIAL, the trailing-garbage code; on an
empty cell the first-byte missing test fires before any conversion and
reports CSV_MISSING_DATA.  The first three conjuncts state the per-cell
conversion used by both integer accessors; the rest run the accessors on
one-cell documents holding those fields. -/
theorem csv_rowl_conversion_error_taxonomy :
    convert_long (List.replicate 20 '9') 10 = .error CSV_READ_OVERFLOW ∧
    convert_long ['1', '2', 'a'] 10 = .error CSV_READ_PARTIAL ∧
    convert_long [] 10 = .error CSV_MISSING_DATA ∧
    csv_rowl ⟨1, 1, 0, 1, none, [[List.replicate 20 '9']]⟩ 0 10
      = (CSV_READ_OVERFLOW, none) ∧
    csv_rowl ⟨1, 1, 0, 1, none, [[['1', '2', 'a']]]⟩ 0 10 = (CSV_READ_PARTIAL, none) ∧
    csv_rowl ⟨1, 1, 1, 1, none, [[[]]]⟩ 0 10 = (CSV_MISSING_DATA, none) ∧
    csv_coll ⟨1, 1, 0, 1, none, [[List.replicate 20 '9']]⟩ 0 10
      = (CSV_READ_OVERFLOW, none) := by
  decide

/-- Claim C10: the spec says the tokenizer writes only inside the first n
buffer bytes and reports CSV_BUFFER_OVERFLOW whenever the decoded field
does not fit.  The loop has no per-write bounds test and the single test
after the loop checks equality with n only: decoding the two-letter field
a b into a capacity-one buffer writes at indices 1 and 2, past the
one-byte buffer, and still returns CSV_SUCCESS. -/
theorem csv_tokenize_buffer_overflow_bug :
    (csv_tokenize ['a', 'b'] 1).status = CSV_SUCCESS ∧
    (csv_tokenize ['a', 'b'] 1).writes = [(0, 'a'), (1, 'b'), (2, nulChar)] ∧
    ¬ (∀ p ∈ (csv_tokenize ['a', 'b'] 1).writes, p.1 < 1) := by
  decide

/-- A document produced by csv_finish carries the dimensioned row count
and satisfies the sanity check of csv.c line 79. -/
theorem csv_finish_doc (r c : Nat) (hl : Option (List (Option (List Char))))
    (s : List Char) (st : CsvErrno) (doc : CsvDoc)
    (h : csv_finish r c hl s = some (st, some doc)) :
    doc.rows = r ∧ doc.missing < doc.total := by
  unfold csv_finish at h
  rcases hE : csv_get_data r c s with ⟨st2, dat, miss, s4⟩
  rw [hE] at h
  simp only at h
  split_ifs at h with h1 h2
  · simp at h
  · simp at h
  · simp only [Option.some.injEq, Prod.mk.injEq] at h
    obtain ⟨-, hdoc⟩ := h
    subst hdoc
    exact ⟨rfl, by simp only; omega⟩

/-- A document produced by csv_build carries the dimensioned row count
and satisfies the sanity check. -/
theorem csv_build_doc (r c : Nat) (hdr : Bool) (s : List Char) (st : CsvErrno)
    (doc : CsvDoc) (h : csv_build r c hdr s = some (st, some doc)) :
    doc.rows = r ∧ doc.missing < doc.total := by
  unfold csv_build at h
  split_ifs at h with hh
  · rcases hH : csv_get_header r c s with - | ⟨sth, hl, rest⟩
    · rw [hH] at h; simp at h
    · rw [hH] at h
      simp only at h
      split_ifs at h with h1
      · simp at h
      · exact csv_finish_doc r c (some hl) rest st doc h
  · exact csv_finish_doc r c none s st doc h

/-- Inversion of a successful csv_read: the file was openable, the
dimension pass succeeded with the row count the document reports, and the
sanity check holds. -/
theorem csv_read_doc (file : Option (List Char)) (hdr : Bool) (st : CsvErrno)
    (doc : CsvDoc) (h : csv_read file hdr = some (st, some doc)) :
    ∃ s c, file = some s ∧ csv_dims s hdr = some (CSV_SUCCESS, doc.rows, c) ∧
      doc.missing < doc.total := by
  cases file with
  | none => simp [csv_read] at h
  | some s =>
    unfold csv_read at h
    simp only at h
    rcases hD : csv_dims s hdr with - | ⟨st0, r, c⟩
    · rw [hD] at h; simp at h
    · rw [hD] at h
      simp only at h
      split_ifs at h with h1
      · simp at h
      · obtain ⟨hr, hm⟩ := csv_build_doc r c hdr s st doc h
        refine ⟨s, c, rfl, ?_, hm⟩
        rw [hD, hr]
        simp only [ne_eq, not_not] at h1
        rw [h1]

/-- Claim C6: every document csv_read returns has strictly fewer missing
cells than total cells; a parse in which every cell came back empty makes
the line 79 check total less-or-equal missing fire, so csv_read returns
CSV_UNKNOWN_FATAL_ERROR and no document instead. -/
theorem csv_read_missing_lt_total (file : Option (List Char)) (hdr : Bool)
    (st : CsvErrno) (doc : CsvDoc) (h : csv_read file hdr = some (st, some doc)) :
    doc.missing < doc.total := by
  obtain ⟨s, c, -, -, hm⟩ := csv_read_doc file hdr st doc h
  exact hm

/-- Witness for claim C6 at the one-cell file holding the letter a,
read without a header. -/
theorem csv_read_missing_lt_total_witness :
    csv_read (some ['a']) false = some (CSV_SUCCESS, some ⟨1, 1, 0, 1, none, [[['a']]]⟩) ∧
    (CsvDoc.mk 1 1 0 1 none [[['a']]]).missing < (CsvDoc.mk 1 1 0 1 none [[['a']]]).total :=
  ⟨by decide, csv_read_missing_lt_total (some ['a']) false CSV_SUCCESS
    ⟨1, 1, 0, 1, none, [[['a']]]⟩ (by decide)⟩

/-- Claim C9: every typed accessor that does not return CSV_SUCCESS
returns no array: the out-of-bounds and null-input exits never allocate
the output, and every conversion failure path frees the partially built
array before returning NULL, so the caller observes no array on any
failure of any of the six accessors. -/
theorem csv_accessors_fail_return_no_array (csv : CsvDoc) (i j base : Nat) :
    ((csv_rowl csv i base).1 ≠ CSV_SUCCESS → (csv_rowl csv i base).2 = none) ∧
    ((csv_coll csv j base).1 ≠ CSV_SUCCESS → (csv_coll csv j base).2 = none) ∧
    ((csv_rowc csv i).1 ≠ CSV_SUCCESS → (csv_rowc csv i).2 = none) ∧
    ((csv_colc csv j).1 ≠ CSV_SUCCESS → (csv_colc csv j).2 = none) ∧
    ((csv_rowd csv i).1 ≠ CSV_SUCCESS → (csv_rowd csv i).2 = none) ∧
    ((csv_cold csv j).1 ≠ CSV_SUCCESS → (csv_cold csv j).2 = none) := by
  refine ⟨?_, ?_, ?_, ?_, ?_, ?_⟩
  · intro hne
    unfold csv_rowl at hne ⊢
    by_cases hb : csv.rows ≤ i
    · rw [if_pos hb]
    · rw [if_neg hb] at hne ⊢
      cases hm : (List.range csv.cols).mapM (fun j => convert_long (cellAt csv i j) base) with
      | error e => rfl
      | ok a => rw [hm] at hne; exact absurd rfl hne
  · intro hne
    unfold csv_coll at hne ⊢
    by_cases hb : csv.cols ≤ j
    · rw [if_pos hb]
    · rw [if_neg hb] at hne ⊢
      cases hm : (List.range csv.rows).mapM (fun i => convert_long (cellAt csv i j) base) with
      | error e => rfl
      | ok a => rw [hm] at hne; exact absurd rfl hne
  · intro hne
    unfold csv_rowc at hne ⊢
    by_cases hb : csv.rows ≤ i
    · rw [if_pos hb]
    · rw [if_neg hb] at hne ⊢
      cases hm : (List.range csv.cols).mapM (fun j => convert_char (cellAt csv i j)) with
      | error e => rfl
      | ok a => rw [hm] at hne; exact absurd rfl hne
  · intro hne
    unfold csv_colc at hne ⊢
    by_cases hb : csv.rows ≤ j
    · rw [if_pos hb]
    · rw [if_neg hb] at hne ⊢
      cases hm : (List.range csv.rows).mapM (fun i => convert_char (cellAt csv i j)) with
      | error e => rfl
      | ok a => rw [hm] at hne; exact absurd rfl hne
  · intro hne
    unfold csv_rowd at hne ⊢
    by_cases hb : csv.rows ≤ i
    · rw [if_pos hb]
    · rw [if_neg hb] at hne ⊢
      cases hm : (List.range csv.cols).mapM (fun j => convert_double (cellAt csv i j)) with
      | error e => rfl
      | ok a => rw [hm] at hne; exact absurd rfl hne
  · intro hne
    unfold csv_cold at hne ⊢
    by_cases hb : csv.cols ≤ j
    · rw [if_pos hb]
    · rw [if_neg hb] at hne ⊢
      cases hm : (List.range csv.rows).mapM (fun i => convert_double (cellAt csv i j)) with
      | error e => rfl
      | ok a => rw [hm] at hne; exact absurd rfl hne

/-- Witness for claim C9 on a one-by-one document with the index 5 out of
bounds for every accessor. -/
theorem csv_accessors_fail_return_no_array_witness :
    ((csv_rowl ⟨1, 1, 0, 1, none, [[['a']]]⟩ 5 10).1 ≠ CSV_SUCCESS ∧
      (csv_rowl ⟨1, 1, 0, 1, none, [[['a']]]⟩ 5 10).2 = none) ∧
    ((csv_colc ⟨1, 1, 0, 1, none, [[['a']]]⟩ 5).1 ≠ CSV_SUCCESS ∧
      (csv_colc ⟨1, 1, 0, 1, none, [[['a']]]⟩ 5).2 = none) :=
  ⟨⟨by decide, (csv_accessors_fail_return_no_array ⟨1, 1, 0, 1, none, [[['a']]]⟩ 5 5 10).1
      (by decide)⟩,
    ⟨by decide, (csv_accessors_fail_return_no_array
      ⟨1, 1, 0, 1, none, [[['a']]]⟩ 5 5 10).2.2.2.1 (by decide)⟩⟩

/-- The row-pass loop ignores every character that is neither a line feed
nor a quote. -/
theorem rows_loop_append_skip (l s : List Char) (k : Nat) (h1 : nlChar ∉ l)
    (h2 : quoteChar ∉ l) : rows_loop (l ++ s) false k = rows_loop s false k := by
  induction l with
  | nil => rfl
  | cons c t ih =>
    simp only [List.mem_cons, not_or] at h1 h2
    have hc1 : c ≠ nlChar := fun hc => h1.1 hc.symm
    have hc2 : c ≠ quoteChar := fun hc => h2.1 hc.symm
    simp only [List.cons_append, rows_loop, Bool.false_eq_true, if_false, hc1, hc2,
      if_neg, ite_false]
    exact ih (fun hm => h1.2 hm) (fun hm => h2.2 hm)

/-- A rendered nonempty list of nonempty lines is a nonempty stream. -/
theorem renderFile_ne_nil (lines : List (List Char)) (hne : lines ≠ [])
    (h : ∀ l ∈ lines, l ≠ []) : renderFile lines ≠ [] := by
  cases lines with
  | nil => exact absurd rfl hne
  | cons l ls =>
    cases ls with
    | nil => exact h l (by simp)
    | cons l2 ls2 => simp [renderFile]

/-- The row pass on a single line without terminator: the terminate label
adds the one final row. -/
theorem rows_loop_render_one (l : List Char) (k : Nat) (hok : lineOK l)
    (hb : k + 1 < U32) :
    rows_loop (renderFile [l]) false k = some (CSV_SUCCESS, k + 1) := by
  obtain ⟨-, hn, hq⟩ := hok
  rw [show renderFile [l] = l ++ [] by simp [renderFile],
    rows_loop_append_skip l [] k hn hq]
  simp only [rows_loop, Bool.false_eq_true, if_false, rows_term]
  rw [Nat.mod_eq_of_lt hb, if_neg (Nat.succ_ne_zero k)]

/-- One step of the row pass at a line feed followed by more input: the
peeked character is pushed back and the row counter incremented. -/
theorem rows_loop_nl_step (c : Char) (t : List Char) (k : Nat)
    (h : (k + 1) % U32 ≠ 0) :
    rows_loop (nlChar :: c :: t) false k = rows_loop (c :: t) false ((k + 1) % U32) := by
  conv_lhs => rw [rows_loop]
  simp [h]

/-- The row pass counts exactly the lines of a rendered well-formed file,
starting from any counter value that cannot wrap. -/
theorem rows_loop_render : ∀ (lines : List (List Char)) (k : Nat), lines ≠ [] →
    (∀ l ∈ lines, lineOK l) → k + lines.length < U32 →
    rows_loop (renderFile lines) false k = some (CSV_SUCCESS, k + lines.length)
  | [], _, hne, _, _ => absurd rfl hne
  | [l], k, _, hok, hb => by
    rw [rows_loop_render_one l k (hok l (by simp)) (by simpa using hb)]
    simp
  | l :: l2 :: ls2, k, _, hok, hb => by
    obtain ⟨-, hn, hq⟩ := hok l (by simp)
    rw [show renderFile (l :: l2 :: ls2) = l ++ nlChar :: renderFile (l2 :: ls2) from rfl,
      rows_loop_append_skip l _ k hn hq]
    obtain ⟨c, t, hct⟩ := List.exists_cons_of_ne_nil
      (renderFile_ne_nil (l2 :: ls2) (by simp) (fun x hx => (hok x (by simp [hx])).1))
    have hlt : k + 1 < U32 := by simp only [List.length_cons] at hb; omega
    have hmod : (k + 1) % U32 = k + 1 := Nat.mod_eq_of_lt hlt
    rw [hct, rows_loop_nl_step c t k (by rw [hmod]; exact Nat.succ_ne_zero k), hmod,
      ← hct, rows_loop_render (l2 :: ls2) (k + 1) (by simp)
        (fun x hx => hok x (by simp [hx]))
        (by simp only [List.length_cons] at hb ⊢; omega)]
    exact congrArg (fun m => some (CSV_SUCCESS, m))
      (by simp only [List.length_cons]; omega)

/-- The row count reported through csv_dims on a stream whose row pass
succeeded: the raw count, decremented once when a header was requested. -/
theorem csv_dims_rows (s : List Char) (hdr : Bool) (L r c : Nat)
    (hrows : csv_rows s = some (CSV_SUCCESS, L))
    (hd : csv_dims s hdr = some (CSV_SUCCESS, r, c)) :
    r = if hdr then (L + (U32 - 1)) % U32 else L := by
  unfold csv_dims at hd
  rcases hc : csv_cols s with - | ⟨st1, c1⟩
  · rw [hc] at hd; simp at hd
  · rw [hc] at hd
    simp only at hd
    by_cases h1 : st1 ≠ CSV_SUCCESS
    · rw [if_pos h1] at hd
      simp only [Option.some.injEq, Prod.mk.injEq] at hd
      exact absurd hd.1 h1
    · rw [if_neg h1, hrows] at hd
      simp only [if_true] at hd
      simp only [Option.some.injEq, Prod.mk.injEq] at hd
      exact hd.2.1.symm

/-- Claim C3: reading a rendered well-formed file of one header line and
any number of data lines reports exactly the number of data lines when the
header is requested, and one more when it is not: the header row is never
part of the reported row count. -/
theorem csv_read_rowcount_excludes_header
    (h0 : List Char) (ds : List (List Char)) (stT stF : CsvErrno) (docT docF : CsvDoc)
    (hok : ∀ l ∈ h0 :: ds, lineOK l) (hb : ds.length + 2 ≤ U32)
    (hT : csv_read (some (renderFile (h0 :: ds))) true = some (stT, some docT))
    (hF : csv_read (some (renderFile (h0 :: ds))) false = some (stF, some docF)) :
    docT.rows = ds.length ∧ docF.rows = ds.length + 1 := by
  have hU : U32 = 4294967296 := rfl
  have hrows : csv_rows (renderFile (h0 :: ds)) = some (CSV_SUCCESS, (h0 :: ds).length) := by
    have hr := rows_loop_render (h0 :: ds) 0 (by simp) hok
      (by simp only [List.length_cons]; omega)
    simpa [csv_rows] using hr
  constructor
  · obtain ⟨s, c, hs, hdims, -⟩ := csv_read_doc _ _ _ _ hT
    obtain rfl := Option.some.inj hs
    have hr := csv_dims_rows _ true _ _ _ hrows hdims
    simp only [if_pos, List.length_cons] at hr
    rw [hr]
    have h2 : ds.length + 1 + (U32 - 1) = ds.length + U32 := by omega
    rw [h2, Nat.add_mod_right]
    exact Nat.mod_eq_of_lt (by omega)
  · obtain ⟨s, c, hs, hdims, -⟩ := csv_read_doc _ _ _ _ hF
    obtain rfl := Option.some.inj hs
    have hr := csv_dims_rows _ false _ _ _ hrows hdims
    simp only [List.length_cons] at hr
    simpa using hr

/-- Witness for claim C3 at the two-line file whose header line is the
letter h and whose single data line is the letter x: both reads succeed
and report one data row with the header and two rows without it. -/
theorem csv_read_rowcount_excludes_header_witness :
    ((∀ l ∈ [['h'], ['x']], lineOK l) ∧ List.length [['x']] + 2 ≤ U32 ∧
      csv_read (some (renderFile [['h'], ['x']])) true
        = some (CSV_SUCCESS, some ⟨1, 1, 0, 1, some [some ['h']], [[['x']]]⟩) ∧
      csv_read (some (renderFile [['h'], ['x']])) false
        = some (CSV_SUCCESS, some ⟨2, 1, 0, 2, none, [[['h']], [['x']]]⟩)) ∧
    ((CsvDoc.mk 1 1 0 1 (some [some ['h']]) [[['x']]]).rows = List.length [['x']] ∧
      (CsvDoc.mk 2 1 0 2 none [[['h']], [['x']]]).rows = List.length [['x']] + 1) :=
  ⟨⟨by decide, by decide, by decide, by decide⟩,
    csv_read_rowcount_excludes_header ['h'] [['x']] CSV_SUCCESS CSV_SUCCESS
      ⟨1, 1, 0, 1, some [some ['h']], [[['x']]]⟩ ⟨2, 1, 0, 2, none, [[['h']], [['x']]]⟩
      (by decide) (by decide) (by decide) (by decide)⟩
